import Mathlib

/-!
Shallow embedding of the request/response core of `src/api.py`
(a Flask service storing SQL "query cards" and forwarding queries to an
external text-generation collaborator).

Modelling conventions:
* JSON values reaching the handlers are modelled structurally.  A field
  read with `data.get(key)` conflates "key absent" and "value null" (both
  give Python `None`), so such fields are `Option String` with `none` for
  absent-or-null.  The `obs` field is read with `data.get('obs', '')`,
  where absent and explicit-null differ, so it is `Option (Option String)`:
  `none` = key absent, `some none` = explicit JSON null, `some (some s)` =
  string value.
* Python truthiness of an optional string (`not data.get(k)`) is
  `pyTruthy`: `None` and `""` are falsy.
* The database session is a `Store`: the list of persisted rows plus the
  next primary-key value the storage engine will assign.
* The external collaborator `model.generate_content` is a black-box
  function `String → CollabResult`; an exception raised by it is
  `CollabResult.err msg` with `msg` the Python `str(e)`.
* `flask.abort(code, description)` raises a `werkzeug` `HTTPException`.
  When it escapes the view Flask turns it into a response with that code
  (modelled as `Body.aborted description`); but `HTTPException` derives
  from `Exception`, so inside `analisar_query`'s `try` block the broad
  `except Exception as e` catches it, and `str(e)` is
  `"400 Bad Request: <description>"`.
* `print` logging and the literal HTML of error pages are not modelled;
  response bodies keep only their JSON payload structure.
-/

/-- The `QueryCard` ORM model: `id` integer primary key, `cliente`
non-nullable string, `observacao` nullable text, `query_sql` non-nullable
text. -/
structure QueryCard where
  id : Nat
  cliente : String
  observacao : Option String
  query_sql : String
deriving Repr, DecidableEq

/-- The JSON dictionary produced by `QueryCard.to_dict`. -/
structure CardDict where
  id : Nat
  cliente : String
  obs : Option String
  query : String
deriving Repr, DecidableEq

/-- `to_dict` from `src/api.py`: serializes a row to its boundary JSON
shape. -/
def QueryCard.to_dict (c : QueryCard) : CardDict :=
  ⟨c.id, c.cliente, c.observacao, c.query_sql⟩

/-- The database session state: persisted rows in insertion order, plus
the fresh primary-key value the storage engine assigns next. -/
structure Store where
  cards : List QueryCard
  nextId : Nat
deriving Repr, DecidableEq

/-- Python truthiness of an optional string: `None` and `""` are falsy,
any non-empty string is truthy. -/
def pyTruthy : Option String → Bool
  | none => false
  | some s => !s.isEmpty

/-- Body of the JSON request to `POST /api/cards`.  `cliente` and `query`
are read via `data.get(...)` (absent and null conflated); `obs` is read
via `data.get('obs', '')`, so absent (`none`) and explicit null
(`some none`) are distinguished. -/
structure CreatePayload where
  cliente : Option String
  obs : Option (Option String)
  query : Option String
deriving Repr, DecidableEq

/-- The value `data.get('obs', '')` evaluates to: the default `''` only
applies when the key is absent; an explicit JSON null passes through as
`None`. -/
def getObs (d : CreatePayload) : Option String :=
  match d.obs with
  | none => some ""
  | some v => v

/-- Body of the JSON request to `POST /api/analisar-query`. -/
structure AnalyzePayload where
  query : Option String
deriving Repr, DecidableEq

/-- Response bodies the handlers produce (JSON payloads, or the error
page Flask renders for an uncaught `abort`). -/
inductive Body where
  | card (c : CardDict)
  | cards (cs : List CardDict)
  | message (m : String)
  | explicacao (text : String)
  | erro (m : String)
  | aborted (description : String)
deriving Repr, DecidableEq

/-- HTTP method of a request to `/api/cards`. -/
inductive Method where
  | GET
  | POST
deriving Repr, DecidableEq

/-- Descending-id order used by `QueryCard.query.order_by(QueryCard.id.desc())`. -/
def cardGe (a b : QueryCard) : Prop := b.id ≤ a.id

instance : DecidableRel cardGe := fun a b => Nat.decLe b.id a.id

instance : IsTotal QueryCard cardGe := ⟨fun a b => Nat.le_total b.id a.id⟩

instance : IsTrans QueryCard cardGe := ⟨fun _ _ _ hab hbc => Nat.le_trans hbc hab⟩

/-- The rows returned by `QueryCard.query.order_by(QueryCard.id.desc()).all()`. -/
def cardsDesc (st : Store) : List QueryCard :=
  st.cards.insertionSort cardGe

/-- The JSON list body of `GET /api/cards`. -/
def cardsListing (st : Store) : List CardDict :=
  (cardsDesc st).map QueryCard.to_dict

/-- The row `QueryCard(cliente=data['cliente'], observacao=data.get('obs', ''),
query_sql=data['query'])` as persisted by the storage engine (which fills
in the fresh primary key).  On the reachable branch `cliente` and `query`
are truthy, so `Option.getD ""` coincides with Python's `data[...]`. -/
def new_card (st : Store) (d : CreatePayload) : QueryCard :=
  ⟨st.nextId, d.cliente.getD "", getObs d, d.query.getD ""⟩

/-- `handle_cards` from `src/api.py`: `POST` validates `cliente` and
`query`, persists a new row and returns it with 201; `GET` returns all
rows ordered by id descending.  Returns the updated session state, the
HTTP status and the body. -/
def handle_cards (st : Store) (method : Method) (data : Option CreatePayload) :
    Store × Nat × Body :=
  match method with
  | .POST =>
    match data with
    | none => (st, 400, .aborted "Cliente e Query são campos obrigatórios.")
    | some d =>
      if !pyTruthy d.cliente || !pyTruthy d.query then
        (st, 400, .aborted "Cliente e Query são campos obrigatórios.")
      else
        (⟨st.cards ++ [new_card st d], st.nextId + 1⟩, 201, .card (new_card st d).to_dict)
  | .GET => (st, 200, .cards (cardsListing st))

/-- `delete_card` from `src/api.py`: `QueryCard.query.get(card_id)` looks
the row up by primary key; a missing row aborts with 404, otherwise the
row is deleted and a success message returned. -/
def delete_card (st : Store) (card_id : Nat) : Store × Nat × Body :=
  match st.cards.find? (fun c => c.id == card_id) with
  | none => (st, 404, .aborted "Card não encontrado.")
  | some _ =>
      ({ st with cards := st.cards.filter (fun c => c.id != card_id) },
        200, .message "Card excluído com sucesso!")

/-- Outcome of the external collaborator call: `response.text` on
success, or the `str(e)` of a raised exception. -/
inductive CollabResult where
  | ok (text : String)
  | err (msg : String)
deriving Repr, DecidableEq

/-- The fixed instructional f-string prompt of `analisar_query`, with the
literal SQL text embedded unescaped. -/
def prompt (query_para_analisar : String) : String :=
  "\n        Você é um especialista em SQL. \n        Analise a query abaixo e explique o que ela faz em um parágrafo claro e conciso.\n        Explique o que cada função faz.\n\n        Query SQL:\n        ```sql\n        "
    ++ query_para_analisar ++ "\n        ```\n        "

/-- Python `str.strip()` as used in `explicacao.strip()`: removes leading
and trailing whitespace characters. -/
def pyStrip (s : String) : String :=
  ⟨((s.data.dropWhile Char.isWhitespace).reverse.dropWhile Char.isWhitespace).reverse⟩

/-- Result of one call to `analisar_query`: HTTP status, body, and how
many times the external collaborator was invoked during the call. -/
structure AnalyzeOutcome where
  status : Nat
  body : Body
  collabCalls : Nat
deriving Repr, DecidableEq

/-- `str(e)` of the `BadRequest` the in-`try` `abort(400, ...)` raises. -/
def noQueryAbortStr : String :=
  "400 Bad Request: Nenhuma query foi fornecida para análise."

/-- The wrapper the broad `except Exception as e` branch puts around
`str(e)`. -/
def aiErrorMsg (s : String) : String :=
  "Ocorreu um erro ao contatar a API de IA: " ++ s

/-- `analisar_query` from `src/api.py`.  `geminiApiKey` is the
`GEMINI_API_KEY` environment value read at startup (`none` if unset);
`generate_content` is the external collaborator.  Everything inside the
`try` block that raises — a `None` request body (`AttributeError`), the
`abort(400)` for a missing/empty query (`BadRequest`), or a collaborator
failure — is caught by `except Exception as e` and answered with status
500 and `aiErrorMsg (str e)`. -/
def analisar_query (geminiApiKey : Option String)
    (generate_content : String → CollabResult)
    (data : Option AnalyzePayload) : AnalyzeOutcome :=
  if !pyTruthy geminiApiKey then
    ⟨500, .erro "A chave da API Gemini não foi configurada no servidor.", 0⟩
  else
    match data with
    | none =>
        ⟨500, .erro (aiErrorMsg "'NoneType' object has no attribute 'get'"), 0⟩
    | some d =>
        if !pyTruthy d.query then
          ⟨500, .erro (aiErrorMsg noQueryAbortStr), 0⟩
        else
          match generate_content (prompt (d.query.getD "")) with
          | .ok text => ⟨200, .explicacao (pyStrip text), 1⟩
          | .err msg => ⟨500, .erro (aiErrorMsg msg), 1⟩

/-- Store well-formedness: primary keys are distinct and below the next
fresh key, and the non-nullable columns `cliente` and `query_sql` are
non-empty. -/
def Store.Wf (st : Store) : Prop :=
  (st.cards.map QueryCard.id).Nodup ∧
    ∀ c ∈ st.cards, c.id < st.nextId ∧ c.cliente ≠ "" ∧ c.query_sql ≠ ""

instance (st : Store) : Decidable st.Wf := by
  unfold Store.Wf; infer_instance

/-! ### Helper lemmas -/

lemma pyTruthy_some_iff (s : String) : pyTruthy (some s) = true ↔ s ≠ "" := by
  simp [pyTruthy, Bool.eq_false_iff, String.isEmpty_iff]

lemma pyTruthy_getD {o : Option String} (h : pyTruthy o = true) : o.getD "" ≠ "" := by
  cases o with
  | none => simp [pyTruthy] at h
  | some s => simpa using (pyTruthy_some_iff s).mp h

lemma length_filter_ne_of_mem (l : List QueryCard) (i : Nat)
    (hnd : (l.map QueryCard.id).Nodup) (h : ∃ c ∈ l, c.id = i) :
    (l.filter (fun c => c.id != i)).length + 1 = l.length := by
  induction l with
  | nil => simp at h
  | cons a l ih =>
    rw [List.map_cons, List.nodup_cons] at hnd
    obtain ⟨ha, hnd2⟩ := hnd
    by_cases hai : a.id = i
    · have hrest : ∀ c ∈ l, (c.id != i) = true := by
        intro c hc
        have : c.id ≠ i := by
          intro hci
          exact ha (List.mem_map.mpr ⟨c, hc, by rw [hci, hai]⟩)
        simpa using this
      rw [List.filter_cons_of_neg (by simpa using hai), List.filter_eq_self.mpr hrest]
      simp
    · obtain ⟨c, hc, hci⟩ := h
      rcases List.mem_cons.mp hc with rfl | hc2
      · exact absurd hci hai
      · rw [List.filter_cons_of_pos (by simpa using hai)]
        simpa using ih hnd2 ⟨c, hc2, hci⟩

/-! ### Claims -/

/-- C1: the claim says a missing or empty `query` on an analyze request is
surfaced as HTTP 400 with the collaborator never invoked.  In the code the
`abort(400, ...)` is raised inside the `try` block whose broad
`except Exception` catches the resulting `BadRequest`, so the response is
actually HTTP 500 wrapping the exception text; the collaborator is indeed
never invoked.  This theorem evaluates the handler at the failing inputs
(empty query, and absent query). -/
theorem C1_analyze_empty_query_gives_500_no_call :
    ∀ g : String → CollabResult,
      analisar_query (some "k") g (some ⟨some ""⟩) =
        ⟨500, .erro (aiErrorMsg noQueryAbortStr), 0⟩ ∧
      analisar_query (some "k") g (some ⟨none⟩) =
        ⟨500, .erro (aiErrorMsg noQueryAbortStr), 0⟩ := by
  intro g
  exact ⟨rfl, rfl⟩

/-- C5: an analyze request made while `GEMINI_API_KEY` is unset fails
immediately with the configuration-error body and status 500, with zero
collaborator invocations, for every request body and every collaborator;
and the card routes keep working (`GET /api/cards` answers 200 with the
listing, and a valid create answers 201), since they never consult the
key. -/
theorem C5_analyze_without_key_short_circuits
    (g : String → CollabResult) (data : Option AnalyzePayload) :
    analisar_query none g data =
      ⟨500, .erro "A chave da API Gemini não foi configurada no servidor.", 0⟩ ∧
    analisar_query (some "") g data =
      ⟨500, .erro "A chave da API Gemini não foi configurada no servidor.", 0⟩ ∧
    (∀ st : Store, handle_cards st .GET none = (st, 200, .cards (cardsListing st))) ∧
    (∀ st : Store,
      (handle_cards st .POST (some ⟨some "Acme", none, some "SELECT 1"⟩)).2.1 = 201) := by
  exact ⟨rfl, rfl, fun st => rfl, fun st => rfl⟩

/-- C3: when the collaborator raises with message `msg` on the prompt of a
valid query, and the key is configured, the handler catches the failure
and answers HTTP 500 whose `erro` body carries `msg` verbatim (appended
unaltered to the fixed wrapper text); the collaborator was invoked exactly
once, and the process keeps serving requests (every card route still
behaves normally: `GET /api/cards` answers 200 with the listing). -/
theorem C3_collaborator_failure_maps_to_500_with_message
    (key q msg : String) (g : String → CollabResult)
    (hk : key ≠ "") (hq : q ≠ "")
    (hg : g (prompt q) = .err msg) :
    analisar_query (some key) g (some ⟨some q⟩) =
      ⟨500, .erro ("Ocorreu um erro ao contatar a API de IA: " ++ msg), 1⟩ ∧
    (∀ st : Store, handle_cards st .GET none = (st, 200, .cards (cardsListing st))) := by
  have hkey : pyTruthy (some key) = true := (pyTruthy_some_iff key).mpr hk
  have hq2 : pyTruthy (some q) = true := (pyTruthy_some_iff q).mpr hq
  refine ⟨?_, fun st => rfl⟩
  simp [analisar_query, hkey, hq2, hg, aiErrorMsg]

theorem C3_witness :
    ("k" : String) ≠ "" ∧ ("SELECT 1" : String) ≠ "" ∧
    analisar_query (some "k") (fun _ => CollabResult.err "boom") (some ⟨some "SELECT 1"⟩) =
      ⟨500, .erro ("Ocorreu um erro ao contatar a API de IA: " ++ "boom"), 1⟩ := by
  refine ⟨by decide, by decide, ?_⟩
  exact (C3_collaborator_failure_maps_to_500_with_message "k" "SELECT 1" "boom"
    (fun _ => CollabResult.err "boom") (by decide) (by decide) rfl).1

/-- C9: when the collaborator succeeds on the prompt of a valid query with
text `text`, and the key is configured, the handler answers 200 and the
returned explanation is `text` with surrounding whitespace trimmed. -/
theorem C9_success_returns_trimmed_text
    (key q text : String) (g : String → CollabResult)
    (hk : key ≠ "") (hq : q ≠ "")
    (hg : g (prompt q) = .ok text) :
    analisar_query (some key) g (some ⟨some q⟩) = ⟨200, .explicacao (pyStrip text), 1⟩ := by
  have hkey : pyTruthy (some key) = true := (pyTruthy_some_iff key).mpr hk
  have hq2 : pyTruthy (some q) = true := (pyTruthy_some_iff q).mpr hq
  simp [analisar_query, hkey, hq2, hg]

/-- Witness for C9, with the spec's concrete collaborator double: the
response of a collaborator returning `"  foo bar  "` is exactly
`"foo bar"`. -/
theorem C9_witness :
    analisar_query (some "k") (fun _ => CollabResult.ok "  foo bar  ")
        (some ⟨some "SELECT 1"⟩) = ⟨200, .explicacao "foo bar", 1⟩ :=
  Eq.trans
    (C9_success_returns_trimmed_text "k" "SELECT 1" "  foo bar  "
      (fun _ => CollabResult.ok "  foo bar  ") (by decide) (by decide) rfl)
    (by decide)

/-- C4: a create request whose `cliente` or `query` is missing, null or
empty (or whose body is missing entirely) is rejected with HTTP 400 and
the 400 abort body, the store is unchanged, and hence a subsequent
listing is unchanged. -/
theorem C4_create_invalid_rejected_store_unchanged
    (st : Store) (d : Option CreatePayload)
    (h : d = none ∨ ∃ p, d = some p ∧
      (pyTruthy p.cliente = false ∨ pyTruthy p.query = false)) :
    handle_cards st .POST d = (st, 400, .aborted "Cliente e Query são campos obrigatórios.") ∧
    cardsListing (handle_cards st .POST d).1 = cardsListing st := by
  have hmain : handle_cards st .POST d =
      (st, 400, .aborted "Cliente e Query são campos obrigatórios.") := by
    rcases h with rfl | ⟨p, rfl, hp⟩
    · rfl
    · rcases hp with hp | hp <;> simp [handle_cards, hp]
  exact ⟨hmain, by rw [hmain]⟩

theorem C4_witness :
    (some (⟨some "", some (some "nota"), some "SELECT 1"⟩ : CreatePayload) = none ∨
      ∃ p, some (⟨some "", some (some "nota"), some "SELECT 1"⟩ : CreatePayload) = some p ∧
        (pyTruthy p.cliente = false ∨ pyTruthy p.query = false)) ∧
    handle_cards ⟨[⟨1, "A", none, "Q"⟩], 2⟩ .POST
        (some ⟨some "", some (some "nota"), some "SELECT 1"⟩) =
      (⟨[⟨1, "A", none, "Q"⟩], 2⟩, 400, .aborted "Cliente e Query são campos obrigatórios.") := by
  have h : (some (⟨some "", some (some "nota"), some "SELECT 1"⟩ : CreatePayload) = none ∨
      ∃ p, some (⟨some "", some (some "nota"), some "SELECT 1"⟩ : CreatePayload) = some p ∧
        (pyTruthy p.cliente = false ∨ pyTruthy p.query = false)) :=
    Or.inr ⟨_, rfl, Or.inl (by decide)⟩
  exact ⟨h, (C4_create_invalid_rejected_store_unchanged ⟨[⟨1, "A", none, "Q"⟩], 2⟩ _ h).1⟩

/-- C6: deleting an existing id answers 200 with the success message,
afterwards no stored card (and no listed card) has that id, and deleting
the same id again answers 404; deleting a missing id answers 404 with the
store unchanged. -/
theorem C6_delete_by_id_semantics (st : Store) (i : Nat) :
    (st.cards.any (fun c => c.id == i) = true →
       (delete_card st i).2 = (200, Body.message "Card excluído com sucesso!") ∧
       (∀ c ∈ (delete_card st i).1.cards, c.id ≠ i) ∧
       (∀ x ∈ cardsListing (delete_card st i).1, x.id ≠ i) ∧
       delete_card (delete_card st i).1 i =
         ((delete_card st i).1, 404, Body.aborted "Card não encontrado.")) ∧
    (st.cards.any (fun c => c.id == i) = false →
       delete_card st i = (st, 404, Body.aborted "Card não encontrado.")) := by
  constructor
  · intro h
    obtain ⟨c0, hc0, hc0i⟩ := List.any_eq_true.mp h
    cases hfind : st.cards.find? (fun c => c.id == i) with
    | none =>
      rw [List.find?_eq_none] at hfind
      exact absurd hc0i (hfind c0 hc0)
    | some c1 =>
      have hstore : (delete_card st i).1 =
          ⟨st.cards.filter (fun c => c.id != i), st.nextId⟩ := by
        simp [delete_card, hfind]
      have h2 : (delete_card st i).2 =
          (200, Body.message "Card excluído com sucesso!") := by
        simp [delete_card, hfind]
      have hfilter : ∀ c ∈ st.cards.filter (fun c => c.id != i), c.id ≠ i := by
        intro c hc
        have := (List.mem_filter.mp hc).2
        simpa using this
      refine ⟨h2, ?_, ?_, ?_⟩
      · intro c hc
        rw [hstore] at hc
        exact hfilter c hc
      · intro x hx
        rw [hstore] at hx
        obtain ⟨c, hc, rfl⟩ := List.mem_map.mp hx
        have hcf : c ∈ st.cards.filter (fun c => c.id != i) :=
          (List.perm_insertionSort cardGe _).mem_iff.mp hc
        exact hfilter c hcf
      · have hnone : (st.cards.filter (fun c => c.id != i)).find?
            (fun c => c.id == i) = none := by
          rw [List.find?_eq_none]
          intro x hx
          simpa using hfilter x hx
        rw [hstore]
        simp [delete_card, hnone]
  · intro h
    have hnone : st.cards.find? (fun c => c.id == i) = none :=
      List.find?_eq_none.mpr (List.any_eq_false.mp h)
    simp [delete_card, hnone]

theorem C6_witness :
    ((⟨[⟨1, "A", some "n", "Q1"⟩, ⟨2, "B", none, "Q2"⟩], 3⟩ : Store).cards.any
        (fun c => c.id == 2) = true) ∧
    (delete_card ⟨[⟨1, "A", some "n", "Q1"⟩, ⟨2, "B", none, "Q2"⟩], 3⟩ 2).2 =
      (200, Body.message "Card excluído com sucesso!") ∧
    ((⟨[⟨1, "A", some "n", "Q1"⟩, ⟨2, "B", none, "Q2"⟩], 3⟩ : Store).cards.any
        (fun c => c.id == 7) = false) ∧
    delete_card ⟨[⟨1, "A", some "n", "Q1"⟩, ⟨2, "B", none, "Q2"⟩], 3⟩ 7 =
      (⟨[⟨1, "A", some "n", "Q1"⟩, ⟨2, "B", none, "Q2"⟩], 3⟩, 404,
        Body.aborted "Card não encontrado.") := by
  refine ⟨by decide, ?_, by decide, ?_⟩
  · exact ((C6_delete_by_id_semantics _ 2).1 (by decide)).1
  · exact (C6_delete_by_id_semantics _ 7).2 (by decide)

/-- C7: `GET /api/cards` answers 200 with the listing; when primary keys
are distinct (every reachable store) the listing is strictly descending
in id; the listing is a permutation of the serialization of every stored
card (nothing missing, nothing extra); and an empty table yields the
empty list, not an error. -/
theorem C7_listing_descending_complete (st : Store)
    (hnd : (st.cards.map QueryCard.id).Nodup) :
    handle_cards st .GET none = (st, 200, Body.cards (cardsListing st)) ∧
    (cardsListing st).Pairwise (fun a b => b.id < a.id) ∧
    (cardsListing st).Perm (st.cards.map QueryCard.to_dict) ∧
    (st.cards = [] → handle_cards st .GET none = (st, 200, Body.cards [])) := by
  have hperm : (cardsDesc st).Perm st.cards := List.perm_insertionSort cardGe st.cards
  refine ⟨rfl, ?_, hperm.map QueryCard.to_dict, ?_⟩
  · have hsorted : List.Sorted cardGe (cardsDesc st) :=
      List.sorted_insertionSort cardGe st.cards
    have hnd2 : ((cardsDesc st).map QueryCard.id).Nodup :=
      ((hperm.map QueryCard.id).nodup_iff).mpr hnd
    have hne : (cardsDesc st).Pairwise (fun a b => a.id ≠ b.id) := by
      rwa [List.Nodup, List.pairwise_map] at hnd2
    have hlt : (cardsDesc st).Pairwise (fun a b => b.id < a.id) :=
      (hsorted.and hne).imp (fun hab => Nat.lt_of_le_of_ne hab.1 (Ne.symm hab.2))
    rw [cardsListing, List.pairwise_map]
    exact hlt
  · intro h
    simp [handle_cards, cardsListing, cardsDesc, h]

theorem C7_witness :
    ((⟨[⟨1, "A", none, "Q1"⟩, ⟨2, "B", none, "Q2"⟩], 3⟩ : Store).cards.map
      QueryCard.id).Nodup ∧
    (cardsListing ⟨[⟨1, "A", none, "Q1"⟩, ⟨2, "B", none, "Q2"⟩], 3⟩).Pairwise
      (fun a b => b.id < a.id) :=
  ⟨by decide, (C7_listing_descending_complete _ (by decide)).2.1⟩

/-- C8: a valid create appends exactly one row carrying the fresh id
`st.nextId` (distinct from every persisted id when the store is
well-bounded), answers 201 with the full serialized card, coerces an
absent `obs` to the empty string, and the new card appears in the
subsequent listing. -/
theorem C8_create_valid_persists_one_row (st : Store) (p : CreatePayload)
    (hc : pyTruthy p.cliente = true) (hq : pyTruthy p.query = true)
    (hfresh : ∀ c ∈ st.cards, c.id < st.nextId) :
    handle_cards st .POST (some p) =
      (⟨st.cards ++ [new_card st p], st.nextId + 1⟩, 201,
        Body.card (new_card st p).to_dict) ∧
    (new_card st p).id = st.nextId ∧
    (new_card st p).id ∉ st.cards.map QueryCard.id ∧
    (handle_cards st .POST (some p)).1.cards.length = st.cards.length + 1 ∧
    (p.obs = none → (new_card st p).observacao = some "") ∧
    (new_card st p).to_dict ∈ cardsListing (handle_cards st .POST (some p)).1 := by
  have hmain : handle_cards st .POST (some p) =
      (⟨st.cards ++ [new_card st p], st.nextId + 1⟩, 201,
        Body.card (new_card st p).to_dict) := by
    simp [handle_cards, hc, hq]
  refine ⟨hmain, rfl, ?_, ?_, ?_, ?_⟩
  · intro hmem
    obtain ⟨c, hcmem, hcid⟩ := List.mem_map.mp hmem
    have := hfresh c hcmem
    have hid : (new_card st p).id = st.nextId := rfl
    omega
  · rw [hmain]
    simp
  · intro h
    simp [new_card, getObs, h]
  · rw [hmain]
    have hpm := List.perm_insertionSort cardGe (st.cards ++ [new_card st p])
    exact List.mem_map_of_mem _ (hpm.mem_iff.mpr (by simp))

theorem C8_witness :
    pyTruthy (some "Acme") = true ∧ pyTruthy (some "SELECT 1") = true ∧
    (∀ c ∈ (⟨[], 1⟩ : Store).cards, c.id < (⟨[], 1⟩ : Store).nextId) ∧
    handle_cards ⟨[], 1⟩ .POST (some ⟨some "Acme", none, some "SELECT 1"⟩) =
      (⟨[⟨1, "Acme", some "", "SELECT 1"⟩], 2⟩, 201,
        Body.card ⟨1, "Acme", some "", "SELECT 1"⟩) := by
  refine ⟨by decide, by decide, by simp, ?_⟩
  have h := (C8_create_valid_persists_one_row ⟨[], 1⟩
    ⟨some "Acme", none, some "SELECT 1"⟩ (by decide) (by decide) (by simp)).1
  exact h.trans (by decide)

/-- C10: a successful delete removes exactly the card with the targeted
id — the row count drops by one, every other card is still stored with
all its fields unchanged and still appears in the subsequent listing, and
nothing new appears. -/
theorem C10_delete_frame (st : Store) (i : Nat)
    (hnd : (st.cards.map QueryCard.id).Nodup)
    (h : st.cards.any (fun c => c.id == i) = true) :
    (delete_card st i).1.cards.length + 1 = st.cards.length ∧
    (∀ c ∈ st.cards, c.id ≠ i →
       c ∈ (delete_card st i).1.cards ∧
       c.to_dict ∈ cardsListing (delete_card st i).1) ∧
    (∀ c ∈ (delete_card st i).1.cards, c ∈ st.cards) := by
  obtain ⟨c0, hc0, hc0i⟩ := List.any_eq_true.mp h
  cases hfind : st.cards.find? (fun c => c.id == i) with
  | none =>
    rw [List.find?_eq_none] at hfind
    exact absurd hc0i (hfind c0 hc0)
  | some c1 =>
    have hstore : (delete_card st i).1 =
        ⟨st.cards.filter (fun c => c.id != i), st.nextId⟩ := by
      simp [delete_card, hfind]
    refine ⟨?_, ?_, ?_⟩
    · rw [hstore]
      exact length_filter_ne_of_mem st.cards i hnd ⟨c0, hc0, by simpa using hc0i⟩
    · intro c hc hci
      have hmemf : c ∈ st.cards.filter (fun x => x.id != i) :=
        List.mem_filter.mpr ⟨hc, by simpa using hci⟩
      rw [hstore]
      refine ⟨hmemf, ?_⟩
      have hpm := List.perm_insertionSort cardGe (st.cards.filter (fun x => x.id != i))
      exact List.mem_map_of_mem _ (hpm.mem_iff.mpr hmemf)
    · intro c hc
      rw [hstore] at hc
      exact (List.mem_filter.mp hc).1

theorem C10_witness :
    ((⟨[⟨1, "A", none, "Q1"⟩, ⟨2, "B", none, "Q2"⟩], 3⟩ : Store).cards.map
      QueryCard.id).Nodup ∧
    (⟨[⟨1, "A", none, "Q1"⟩, ⟨2, "B", none, "Q2"⟩], 3⟩ : Store).cards.any
      (fun c => c.id == 2) = true ∧
    (delete_card ⟨[⟨1, "A", none, "Q1"⟩, ⟨2, "B", none, "Q2"⟩], 3⟩ 2).1.cards.length + 1 =
      (⟨[⟨1, "A", none, "Q1"⟩, ⟨2, "B", none, "Q2"⟩], 3⟩ : Store).cards.length :=
  ⟨by decide, by decide, (C10_delete_frame _ 2 (by decide) (by decide)).1⟩

/-- C2 counterexample: a create payload whose `obs` field is explicitly
null passes validation, and the persisted card's note is null (`none`),
not the empty string — `data.get('obs', '')` only substitutes the default
for an absent key, and the `observacao` column is nullable.  This
falsifies the claimed invariant "note is never absent/null ... including
a payload whose `obs` field is explicitly null" at a concrete input. -/
theorem C2_counterexample_null_note_persisted :
    (handle_cards ⟨[], 1⟩ .POST
        (some ⟨some "Acme", some none, some "SELECT 1"⟩)).1.cards =
      [⟨1, "Acme", none, "SELECT 1"⟩] := by
  decide

/-- C2 (amended): every reachable store keeps distinct ids bounded by the
fresh-id counter and non-empty `cliente`/`query_sql` — an invariant
preserved by every create and every delete — and an absent `obs` key is
coerced to the empty-string note; but an explicitly null `obs` is stored
as a null note (see the counterexample), so "note never null" holds only
for payloads whose `obs` is absent or a string. -/
theorem C2_invariants_amended (st : Store) (hwf : st.Wf) :
    (∀ d : Option CreatePayload, ((handle_cards st .POST d).1).Wf) ∧
    (∀ i : Nat, ((delete_card st i).1).Wf) ∧
    (∀ p : CreatePayload, p.obs = none → pyTruthy p.cliente = true →
       pyTruthy p.query = true →
       (handle_cards st .POST (some p)).1.cards =
         st.cards ++ [⟨st.nextId, p.cliente.getD "", some "", p.query.getD ""⟩]) := by
  obtain ⟨hnd, hbound⟩ := hwf
  refine ⟨?_, ?_, ?_⟩
  · intro d
    rcases d with _ | p
    · exact ⟨hnd, hbound⟩
    · by_cases hc : pyTruthy p.cliente = true
      · by_cases hq : pyTruthy p.query = true
        · have hmain : (handle_cards st .POST (some p)).1 =
              ⟨st.cards ++ [new_card st p], st.nextId + 1⟩ := by
            simp [handle_cards, hc, hq]
          rw [hmain]
          constructor
          · rw [List.map_append, List.nodup_append]
            refine ⟨hnd, List.nodup_singleton _, ?_⟩
            intro a ha hb
            simp [new_card] at hb
            subst hb
            obtain ⟨c, hcmem, hcid⟩ := List.mem_map.mp ha
            have := (hbound c hcmem).1
            omega
          · intro c hcmem
            rcases List.mem_append.mp hcmem with hcm | hcm
            · obtain ⟨h1, h2, h3⟩ := hbound c hcm
              exact ⟨Nat.lt_succ_of_lt h1, h2, h3⟩
            · have hceq := List.mem_singleton.mp hcm
              subst hceq
              exact ⟨Nat.lt_succ_self _, pyTruthy_getD hc, pyTruthy_getD hq⟩
        · have hq2 : pyTruthy p.query = false := Bool.eq_false_iff.mpr hq
          have hmain : (handle_cards st .POST (some p)).1 = st := by
            simp [handle_cards, hq2]
          rw [hmain]
          exact ⟨hnd, hbound⟩
      · have hc2 : pyTruthy p.cliente = false := Bool.eq_false_iff.mpr hc
        have hmain : (handle_cards st .POST (some p)).1 = st := by
          simp [handle_cards, hc2]
        rw [hmain]
        exact ⟨hnd, hbound⟩
  · intro i
    cases hfind : st.cards.find? (fun c => c.id == i) with
    | none =>
      have hmain : (delete_card st i).1 = st := by
        simp [delete_card, hfind]
      rw [hmain]
      exact ⟨hnd, hbound⟩
    | some c1 =>
      have hmain : (delete_card st i).1 =
          ⟨st.cards.filter (fun c => c.id != i), st.nextId⟩ := by
        simp [delete_card, hfind]
      rw [hmain]
      constructor
      · exact List.Nodup.sublist ((List.filter_sublist _).map QueryCard.id) hnd
      · intro c hc
        exact hbound c (List.mem_filter.mp hc).1
  · intro p hobs hc hq
    simp [handle_cards, hc, hq, new_card, getObs, hobs]

theorem C2_witness :
    (⟨[], 1⟩ : Store).Wf ∧
    ((handle_cards ⟨[], 1⟩ .POST
        (some ⟨some "Acme", none, some "SELECT 1"⟩)).1).Wf ∧
    ((delete_card ⟨[], 1⟩ 5).1).Wf := by
  have h := C2_invariants_amended ⟨[], 1⟩ (by decide)
  exact ⟨by decide, h.1 (some ⟨some "Acme", none, some "SELECT 1"⟩), h.2.1 5⟩
